import Mathlib

/-!
Verification of the DevAssist migration frontend and its orchestrator
specification.

The repository ships the Next.js frontend (`src/frontend/src/...` and the
unnamed page/component files) together with a README describing the backend
multi-agent orchestrator.  The frontend components are embedded directly from
their TypeScript source; the backend workflow engine, retry controller and job
store are not present in the source tree, so they are modelled from the
specification where a claim needs them (each such definition carries a doc
comment starting with `Modelled from the spec:`).
-/

namespace DevAssist

/-! ## Frontend data model (from `src/frontend/src/types/index.ts`) -/

/-- The `status` union of `MigrationJob` in `types/index.ts`:
`'pending' | 'processing' | 'cloning' | 'planning' | 'coding' | 'testing' |
'review' | 'completed' | 'failed'`. -/
inductive MigrationStatus where
  | pending
  | processing
  | cloning
  | planning
  | coding
  | testing
  | review
  | completed
  | failed
deriving DecidableEq, Repr

/-- The `migration_type` union of `MigrationJob`:
`'py2to3' | 'flask_to_fastapi'`. -/
inductive MigrationType where
  | py2to3
  | flask_to_fastapi
deriving DecidableEq, Repr

/-- The string literal of each member of the TypeScript `status` union. -/
def statusString : MigrationStatus → String
  | .pending => "pending"
  | .processing => "processing"
  | .cloning => "cloning"
  | .planning => "planning"
  | .coding => "coding"
  | .testing => "testing"
  | .review => "review"
  | .completed => "completed"
  | .failed => "failed"

/-- The string literal of each member of the TypeScript `migration_type`
union; these are also the two `<option value=...>` entries of the
migration-type select in `RepoMigration`. -/
def migrationTypeValue : MigrationType → String
  | .py2to3 => "py2to3"
  | .flask_to_fastapi => "flask_to_fastapi"

/-- The `MigrationJob` interface of `types/index.ts` (fields the claims
touch; optional TypeScript fields become `Option`). -/
structure MigrationJob where
  job_id : String
  status : MigrationStatus
  migration_type : MigrationType
  created_at : String
  completed_at : Option String := none
  error : Option String := none
  file_count : Nat
  issues_found : Nat
  issues_fixed : Nat
  tests_passed : Option Bool := none
  pr_url : Option String := none
  current_agent : Option String := none
  messages : Option (List String) := none
deriving DecidableEq, Repr

/-- `getStatusText` of `MigrationProgress` (in `FileUpload.tsx`): a switch on
the job status with no default clause, so statuses it does not list fall
through to `undefined` (`none`). -/
def getStatusText : MigrationStatus → Option String
  | .pending => some "Preparing migration..."
  | .processing => some "Processing your codebase..."
  | .completed => some "Migration completed!"
  | .failed => some "Migration failed"
  | _ => none

/-- The nine status strings admitted by the `MigrationJob.status` union in
`types/index.ts`. -/
def codeStatusNames : List String :=
  ["pending", "processing", "cloning", "planning", "coding", "testing",
   "review", "completed", "failed"]

/-- The seven status values named by the specification (`Pending, Cloning,
Planning, Coding, Testing, Completed, Failed`), written from the spec wording
to compare against the code's `MigrationStatus`. -/
def specStatusNames : List String :=
  ["pending", "cloning", "planning", "coding", "testing", "completed",
   "failed"]

/-- Whether a code-level status is one of the spec's seven values. -/
def statusInSpecSeven (s : MigrationStatus) : Bool :=
  specStatusNames.contains (statusString s)

/-! ## Client polling loops

`RepoMigration`'s poll `useEffect` guards with
`if (!job || job.status === 'completed' || job.status === 'failed') return;`
before installing the interval, and `MigrationProgress` (in `FileUpload.tsx`)
guards with
`if (currentJob.status === 'completed' || currentJob.status === 'failed') return;`.
Inside the interval the fetched job replaces the displayed one via `setJob` /
`setCurrentJob`. -/

/-- Whether the `RepoMigration` poll effect installs the polling interval for
the current `job` state. -/
def repoPollStarts (job : Option MigrationJob) : Bool :=
  match job with
  | none => false
  | some j =>
      if j.status = .completed ∨ j.status = .failed then false else true

/-- One rendering of the `RepoMigration` poll effect: if the interval is
installed, a tick replaces the displayed job by the fetched snapshot
(`setJob(updatedJob)`); otherwise the displayed job is untouched. -/
def repoPollStep (job : Option MigrationJob) (fetched : MigrationJob) :
    Option MigrationJob :=
  if repoPollStarts job then some fetched else job

/-- Whether the `MigrationProgress` poll effect installs the polling interval
for the current job. -/
def progressPollStarts (j : MigrationJob) : Bool :=
  if j.status = .completed ∨ j.status = .failed then false else true

/-- One rendering of the `MigrationProgress` poll effect: a tick replaces the
displayed job by the fetched snapshot (`setCurrentJob(updatedJob)`) only when
the interval was installed. -/
def progressPollStep (j : MigrationJob) (fetched : MigrationJob) :
    MigrationJob :=
  if progressPollStarts j then fetched else j

/-! ## Migrate handlers (`CodeSnippet.handleMigrate`, `RepoMigration.handleMigrate`)

Both begin with a guard on the trimmed input: JavaScript `!s.trim()` is true
exactly when the trimmed string is empty.  `jsTrim` embeds
`String.prototype.trim`, which strips leading and trailing whitespace. -/

/-- Drop leading whitespace characters from a character list. -/
def trimLeadingWs : List Char → List Char
  | [] => []
  | c :: cs => if c.isWhitespace then trimLeadingWs cs else c :: cs

/-- JavaScript `String.prototype.trim`: strip whitespace from both ends. -/
def jsTrim (s : String) : String :=
  ⟨(trimLeadingWs (trimLeadingWs s.data).reverse).reverse⟩

/-- The synchronous outcome of a migrate handler before any response arrives:
the error message it sets (if any) and whether it reached the API call. -/
structure HandlerResult where
  error : Option String
  apiCalled : Bool
deriving DecidableEq, Repr

/-- `handleMigrate` of `CodeSnippet.tsx`: on empty trimmed code it sets the
error and returns; otherwise it clears the error and calls
`api.migrateSnippet`. -/
def snippetHandleMigrate (code : String) : HandlerResult :=
  if jsTrim code = "" then
    { error := some "Please enter some code to migrate", apiCalled := false }
  else
    { error := none, apiCalled := true }

/-- `handleMigrate` of `RepoMigration` (unnamed part_002): on empty trimmed
repository URL it sets the error and returns; otherwise it clears the error
and calls `migrateRepository`. -/
def repoHandleMigrate (repoUrl : String) : HandlerResult :=
  if jsTrim repoUrl = "" then
    { error := some "Please enter a repository URL", apiCalled := false }
  else
    { error := none, apiCalled := true }

/-! ## File upload drop handler (`FileUpload.onDrop`) -/

/-- The part of a dropped `File` the handler inspects. -/
structure FileMeta where
  name : String
deriving DecidableEq, Repr

/-- The `FileUpload` component state the drop handler touches. -/
structure UploadState where
  selectedFile : Option FileMeta
  error : Option String
deriving DecidableEq, Repr

/-- JavaScript `String.prototype.endsWith`. -/
def jsEndsWith (s suffix : String) : Bool :=
  suffix.data.isSuffixOf s.data

/-- `onDrop` of `FileUpload.tsx`: clear the error; if a file was accepted,
select it when its name ends with `.zip`, otherwise set the ZIP error and
leave the selection unchanged. -/
def onDrop (s : UploadState) (acceptedFiles : List FileMeta) : UploadState :=
  let s1 : UploadState := { s with error := none }
  match acceptedFiles with
  | [] => s1
  | file :: _ =>
      if jsEndsWith file.name ".zip" then
        { s1 with selectedFile := some file }
      else
        { s1 with error := some "Please upload a ZIP file" }

/-! ## RepoMigration progress indicator -/

/-- The stage list rendered by the `RepoMigration` progress indicator. -/
def progressStages : List String :=
  ["cloning", "planning", "coding", "testing", "completed"]

/-- JavaScript `Array.prototype.indexOf`: the index of the first occurrence,
or `-1` when absent. -/
def jsIndexOf : List String → String → Int
  | [], _ => -1
  | y :: ys, x =>
      if y = x then 0
      else
        let r := jsIndexOf ys x
        if r = -1 then -1 else r + 1

/-- `isActive` for the stage circle at `index`:
`stages.indexOf(job.status) >= index`. -/
def stageIsActive (status : MigrationStatus) (index : Nat) : Bool :=
  decide ((index : Int) ≤ jsIndexOf progressStages (statusString status))

/-- `isCurrent` for a stage: `job.status === stage`. -/
def stageIsCurrent (status : MigrationStatus) (stage : String) : Bool :=
  decide (statusString status = stage)

/-! ## Backend orchestrator, modelled from the spec

The workflow engine, retry/checkpoint controller and job store described in
spec sections 4.1, 4.3 and 4.4 are not present under the source tree (only
the README and the frontend are), so they are modelled from the spec text
below. -/

/-- Modelled from the spec: the workflow states of section 4.1,
`Pending → Cloning → Planning → Coding → Testing → Completed or Failed`
(the backend workflow engine is absent from the source tree). -/
inductive WfStatus where
  | pending
  | cloning
  | planning
  | coding
  | testing
  | completed
  | failed
deriving DecidableEq, Repr

/-- Modelled from the spec: the structured cause stored in `errorDetail` —
either an executor-provided cause (fatal stage failure) or the controller's
convergence failure "validation did not converge". -/
inductive FailCause where
  | stage (msg : String)
  | convergence
deriving DecidableEq, Repr

/-- Modelled from the spec: the Job record of section 3 held by the job
store.  The Planner's discovered pattern occurrences are kept as a list of
flags (`true` = the Coder has applied a fix for that occurrence), so
`issuesFound` counts discovered occurrences and `issuesFixed` counts applied
fixes. -/
structure WfJob where
  status : WfStatus
  migrationKind : String
  testRetryCount : Nat
  fixFlags : List Bool
  issuesFound : Nat
  issuesFixed : Nat
  codingRan : Bool
  errorDetail : Option FailCause
deriving DecidableEq, Repr

/-- Modelled from the spec: the configured maximum for Testing retries
(section 4.3 gives a fixed bound, e.g. 2). -/
def maxTestRetries : Nat := 2

/-- Modelled from the spec: the stage outcomes the controller can receive,
one event per executor result (section 4.2's `StageOutcome`).  A Coder
success carries its per-pattern applied/skipped outcome as a predicate on
pattern indices; a Tester failure carries the retryable flag. -/
inductive StageEvent where
  | startJob
  | cloneSuccess
  | cloneFailure (cause : String)
  | planSuccess (found : Nat)
  | planFailure (cause : String)
  | codeSuccess (applied : Nat → Bool)
  | codeFailure (cause : String)
  | testSuccess
  | testFailure (cause : String) (retryable : Bool)

/-- Mark as fixed every pattern occurrence the Coder's outcome applied
(indices counted from `i`); already-applied fixes are kept. -/
def applyFixes (applied : Nat → Bool) : List Bool → Nat → List Bool
  | [], _ => []
  | b :: bs, i => (b || applied i) :: applyFixes applied bs (i + 1)

/-- Number of `true` flags: the number of applied fixes. -/
def countTrue : List Bool → Nat
  | [] => 0
  | b :: bs => (if b then 1 else 0) + countTrue bs

/-- Whether a workflow status is terminal (`Completed` or `Failed`). -/
def terminalWf (s : WfStatus) : Bool :=
  match s with
  | .completed => true
  | .failed => true
  | _ => false

/-- Modelled from the spec: the workflow engine transition function of
sections 4.1 and 4.3.  Cloning, Planning and Coding failures are immediately
fatal with the executor's cause; a retryable Testing failure increments
`testRetryCount` and either re-enters Coding (below the maximum) or fails
with the convergence cause (at or above it); terminal states absorb every
event; an event that does not match the current stage leaves the job
unchanged. -/
def wfStep (j : WfJob) (e : StageEvent) : WfJob :=
  match j.status, e with
  | .pending, .startJob => { j with status := .cloning }
  | .cloning, .cloneSuccess => { j with status := .planning }
  | .cloning, .cloneFailure c =>
      { j with status := .failed, errorDetail := some (.stage c) }
  | .planning, .planSuccess n =>
      { j with status := .coding,
               fixFlags := j.fixFlags ++ List.replicate n false,
               issuesFound := j.issuesFound + n }
  | .planning, .planFailure c =>
      { j with status := .failed, errorDetail := some (.stage c) }
  | .coding, .codeSuccess applied =>
      let newFlags := applyFixes applied j.fixFlags 0
      { j with status := .testing, fixFlags := newFlags,
               issuesFixed := countTrue newFlags, codingRan := true }
  | .coding, .codeFailure c =>
      { j with status := .failed, errorDetail := some (.stage c) }
  | .testing, .testSuccess => { j with status := .completed }
  | .testing, .testFailure _c true =>
      if j.testRetryCount + 1 < maxTestRetries then
        { j with status := .coding, testRetryCount := j.testRetryCount + 1 }
      else
        { j with status := .failed, testRetryCount := j.testRetryCount + 1,
                 errorDetail := some .convergence }
  | .testing, .testFailure c false =>
      { j with status := .failed, errorDetail := some (.stage c) }
  | _, _ => j

/-- Modelled from the spec: a freshly created Job in `Pending` with zeroed
counters (Create Job, section 6). -/
def initJob (kind : String) : WfJob :=
  { status := .pending, migrationKind := kind, testRetryCount := 0,
    fixFlags := [], issuesFound := 0, issuesFixed := 0, codingRan := false,
    errorDetail := none }

/-- The job-store state after a trace of stage events, starting from a fresh
job: every reachable snapshot is `runWf kind es` for some trace `es`. -/
def runWf (kind : String) (es : List StageEvent) : WfJob :=
  es.foldl wfStep (initJob kind)

/-- Modelled from the spec: Create Job fails with `InvalidInput` when the
migration kind is unrecognized (section 6); the recognized kinds are the two
the frontend offers. -/
inductive CreateJobError where
  | invalidInput
deriving DecidableEq, Repr

/-- The recognized migration kinds. -/
def recognizedKinds : List String := ["py2to3", "flask_to_fastapi"]

/-- Modelled from the spec: the Create Job boundary operation of section 6 —
a new `Pending` job on a recognized kind, `InvalidInput` otherwise. -/
def createJob (kind : String) : Except CreateJobError WfJob :=
  if recognizedKinds.contains kind then .ok (initJob kind)
  else .error .invalidInput

/-! ## Helper lemmas about the workflow model -/

lemma countTrue_le_length (l : List Bool) : countTrue l ≤ l.length := by
  induction l with
  | nil => simp [countTrue]
  | cons b bs ih =>
      simp only [countTrue, List.length_cons]
      split <;> omega

lemma countTrue_append (a b : List Bool) :
    countTrue (a ++ b) = countTrue a + countTrue b := by
  induction a with
  | nil => simp [countTrue]
  | cons x xs ih => simp [countTrue, ih]; omega

lemma countTrue_replicate_false (n : Nat) :
    countTrue (List.replicate n false) = 0 := by
  induction n with
  | zero => simp [countTrue]
  | succ m ih => simpa [List.replicate_succ, countTrue] using ih

lemma applyFixes_length (f : Nat → Bool) (l : List Bool) (i : Nat) :
    (applyFixes f l i).length = l.length := by
  induction l generalizing i with
  | nil => simp [applyFixes]
  | cons b bs ih => simp [applyFixes, ih]

/-- A terminal job absorbs every stage event. -/
lemma wfStep_terminal (j : WfJob) (e : StageEvent)
    (h : terminalWf j.status = true) : wfStep j e = j := by
  cases j with
  | mk st kind rc flags found fixed ran err =>
      cases st <;> simp_all [terminalWf] <;> cases e <;> rfl

/-- The step-preserved invariant of the workflow model: counters agree with
the pattern flags, and the Testing retry count is strictly below the maximum
unless the job already terminated. -/
def wfInv (j : WfJob) : Prop :=
  j.issuesFound = j.fixFlags.length ∧
  j.issuesFixed ≤ countTrue j.fixFlags ∧
  j.testRetryCount ≤ maxTestRetries ∧
  (terminalWf j.status = true ∨ j.testRetryCount < maxTestRetries)

lemma wfInv_init (kind : String) : wfInv (initJob kind) := by
  simp [wfInv, initJob, countTrue, terminalWf, maxTestRetries]

lemma wfInv_step (j : WfJob) (e : StageEvent) (h : wfInv j) :
    wfInv (wfStep j e) := by
  obtain ⟨h1, h2, h3, h4⟩ := h
  cases j with
  | mk st kind rc flags found fixed ran err =>
      simp only [wfInv, terminalWf] at *
      cases st <;> cases e <;>
        simp only [wfStep] <;>
        (try split) <;>
        (try split) <;>
        simp_all [terminalWf, countTrue_append, countTrue_replicate_false,
                  applyFixes_length, countTrue_le_length] <;>
        omega

lemma wfInv_foldl (es : List StageEvent) (j : WfJob) (h : wfInv j) :
    wfInv (es.foldl wfStep j) := by
  induction es generalizing j with
  | nil => simpa using h
  | cons e rest ih => exact ih (wfStep j e) (wfInv_step j e h)

lemma wfInv_run (kind : String) (es : List StageEvent) :
    wfInv (runWf kind es) :=
  wfInv_foldl es (initJob kind) (wfInv_init kind)

/-- Reduction of the controller's over-budget Testing retry: from `Testing`,
a retryable failure whose increment reaches the maximum yields `Failed` with
the convergence cause. -/
lemma wfStep_testing_overBudget (j : WfJob) (c : String)
    (h : j.status = .testing)
    (hrc : maxTestRetries ≤ j.testRetryCount + 1) :
    wfStep j (.testFailure c true) =
      { j with status := .failed, testRetryCount := j.testRetryCount + 1,
               errorDetail := some .convergence } := by
  cases j with
  | mk st kind rc flags found fixed ran err =>
      simp only [WfJob.status] at h
      subst h
      simp only [wfStep]
      rw [if_neg (by simp_all)]

/-- A terminal job is a fixed point of any further event trace. -/
lemma foldl_terminal (j : WfJob) (h : terminalWf j.status = true) :
    ∀ more : List StageEvent, more.foldl wfStep j = j := by
  intro more
  induction more with
  | nil => rfl
  | cons e rest ih => rw [List.foldl_cons, wfStep_terminal j e h]; exact ih

/-- `Array.prototype.indexOf` returns `-1` exactly on absent elements. -/
lemma jsIndexOf_not_mem (l : List String) (x : String) (h : x ∉ l) :
    jsIndexOf l x = -1 := by
  induction l with
  | nil => rfl
  | cons y ys ih =>
      simp only [jsIndexOf]
      rw [if_neg (fun he => h (by rw [← he]; exact List.mem_cons_self y ys)),
          ih (fun hm => h (List.mem_cons_of_mem y hm))]
      simp

/-! ## Sample inputs used by the witness theorems -/

/-- A Coder outcome that applies a fix to the first two pattern
occurrences. -/
def sampleApplied : Nat → Bool := fun i => decide (i < 2)

/-- A trace reaching `Testing` with three issues found and two fixed. -/
def traceA : List StageEvent :=
  [.startJob, .cloneSuccess, .planSuccess 3, .codeSuccess sampleApplied]

/-- `traceA` extended by one retryable Testing failure and the Coder
re-run: back in `Testing` with retry count 1. -/
def traceB : List StageEvent :=
  traceA ++ [.testFailure "tests failed" true, .codeSuccess sampleApplied]

/-- A trace terminating with a fatal Cloning failure. -/
def traceFailClone : List StageEvent :=
  [.startJob, .cloneFailure "unreachable source"]

/-- A completed backend job. -/
def doneWfJob : WfJob :=
  { status := .completed, migrationKind := "py2to3", testRetryCount := 0,
    fixFlags := [true], issuesFound := 1, issuesFixed := 1,
    codingRan := true, errorDetail := none }

/-- A backend job parked at an arbitrary stage with fresh counters. -/
def stagedWfJob (s : WfStatus) : WfJob :=
  { status := s, migrationKind := "py2to3", testRetryCount := 0,
    fixFlags := [], issuesFound := 0, issuesFixed := 0, codingRan := false,
    errorDetail := none }

/-- A frontend job snapshot at a given status. -/
def sampleMigrationJob (s : MigrationStatus) : MigrationJob :=
  { job_id := "job-1", status := s, migration_type := .py2to3,
    created_at := "2024-01-01", file_count := 3, issues_found := 2,
    issues_fixed := 2 }

/-- An upload component state with no selection and a stale error. -/
def sampleUploadState : UploadState :=
  { selectedFile := none, error := some "stale" }

/-! ## Claims -/

/-- Claim C1 (counterexample): the claim that every Job status is one of the
seven spec values fails on the code — `processing` is a member of the
`MigrationJob.status` union that the program consumes (the
`MigrationProgress` component renders a dedicated status text for it), yet it
is not among the spec's seven values. -/
theorem c1_seven_status_counterexample :
    statusInSpecSeven MigrationStatus.processing = false ∧
    getStatusText MigrationStatus.processing =
      some "Processing your codebase..." := by
  exact ⟨rfl, rfl⟩

/-- Claim C1 (amended): every Job status the program produces or consumes is
one of the nine values of the code's status union — `pending, processing,
cloning, planning, coding, testing, review, completed, failed`. -/
theorem c1_status_within_nine (s : MigrationStatus) :
    codeStatusNames.contains (statusString s) = true := by
  cases s <;> rfl

/-- Claim C2: no workflow transition leaves a terminal state (`Completed` or
`Failed`), and in both client components a job with terminal status installs
no polling interval, so no further status request is issued and the displayed
job is never replaced. -/
theorem c2_terminal_states_frozen :
    (∀ (j : WfJob) (e : StageEvent),
        terminalWf j.status = true → wfStep j e = j) ∧
    (∀ (j : MigrationJob) (fetched : MigrationJob),
        j.status = .completed ∨ j.status = .failed →
        repoPollStarts (some j) = false ∧
        repoPollStep (some j) fetched = some j ∧
        progressPollStarts j = false ∧
        progressPollStep j fetched = j) := by
  refine ⟨wfStep_terminal, ?_⟩
  intro j fetched h
  have h1 : repoPollStarts (some j) = false := by
    simp only [repoPollStarts]
    rw [if_pos h]
  have h2 : progressPollStarts j = false := by
    simp only [progressPollStarts]
    rw [if_pos h]
  refine ⟨h1, ?_, h2, ?_⟩
  · simp [repoPollStep, h1]
  · simp [progressPollStep, h2]

/-- Witness for C2 at a completed backend job and completed/failed frontend
snapshots. -/
theorem c2_terminal_states_frozen_witness :
    wfStep doneWfJob .testSuccess = doneWfJob ∧
    repoPollStarts (some (sampleMigrationJob .completed)) = false ∧
    repoPollStep (some (sampleMigrationJob .completed))
        (sampleMigrationJob .failed) = some (sampleMigrationJob .completed) ∧
    progressPollStarts (sampleMigrationJob .failed) = false := by
  refine ⟨c2_terminal_states_frozen.1 doneWfJob .testSuccess rfl, ?_, ?_, ?_⟩
  · exact (c2_terminal_states_frozen.2 (sampleMigrationJob .completed)
      (sampleMigrationJob .failed) (Or.inl rfl)).1
  · exact (c2_terminal_states_frozen.2 (sampleMigrationJob .completed)
      (sampleMigrationJob .failed) (Or.inl rfl)).2.1
  · exact (c2_terminal_states_frozen.2 (sampleMigrationJob .failed)
      (sampleMigrationJob .completed) (Or.inr rfl)).2.2.1

/-- Claim C3: over every event trace the Testing retry count stays at or
below the configured maximum, and from `Testing`, a retryable failure whose
increment reaches the maximum transitions the job to `Failed` with the
convergence cause ("validation did not converge") instead of retrying, still
within the bound. -/
theorem c3_test_retry_bounded (kind : String) (es : List StageEvent)
    (c : String) :
    (runWf kind es).testRetryCount ≤ maxTestRetries ∧
    ((runWf kind es).status = .testing →
      maxTestRetries ≤ (runWf kind es).testRetryCount + 1 →
      (wfStep (runWf kind es) (.testFailure c true)).status = .failed ∧
      (wfStep (runWf kind es) (.testFailure c true)).errorDetail =
        some .convergence ∧
      (wfStep (runWf kind es) (.testFailure c true)).testRetryCount ≤
        maxTestRetries) := by
  obtain ⟨-, -, h3, h4⟩ := wfInv_run kind es
  refine ⟨h3, ?_⟩
  intro hst hrc
  have hlt : (runWf kind es).testRetryCount < maxTestRetries := by
    rcases h4 with ht | hlt
    · rw [hst] at ht; simp [terminalWf] at ht
    · exact hlt
  rw [wfStep_testing_overBudget _ c hst hrc]
  refine ⟨rfl, rfl, ?_⟩
  show (runWf kind es).testRetryCount + 1 ≤ maxTestRetries
  omega

/-- Witness for C3 on the trace that has already consumed one Testing retry:
the next retryable failure fails the job with the convergence cause. -/
theorem c3_test_retry_bounded_witness :
    (runWf "py2to3" traceB).testRetryCount ≤ maxTestRetries ∧
    (wfStep (runWf "py2to3" traceB) (.testFailure "still failing" true)).status
      = .failed ∧
    (wfStep (runWf "py2to3" traceB)
        (.testFailure "still failing" true)).errorDetail =
      some .convergence := by
  have h := c3_test_retry_bounded "py2to3" traceB "still failing"
  have hc := h.2 (by decide) (by decide)
  exact ⟨h.1, hc.1, hc.2.1⟩

/-- Claim C4: over every event trace, once the Coding stage has produced at
least one result, `issuesFound ≥ issuesFixed` holds in the observed
snapshot. -/
theorem c4_issues_found_ge_fixed (kind : String) (es : List StageEvent) :
    (runWf kind es).codingRan = true →
    (runWf kind es).issuesFixed ≤ (runWf kind es).issuesFound := by
  intro _
  obtain ⟨h1, h2, -, -⟩ := wfInv_run kind es
  calc (runWf kind es).issuesFixed
      ≤ countTrue (runWf kind es).fixFlags := h2
    _ ≤ (runWf kind es).fixFlags.length := countTrue_le_length _
    _ = (runWf kind es).issuesFound := h1.symm

/-- Witness for C4 on a trace where the Coder has run (3 issues found, 2
fixed). -/
theorem c4_issues_found_ge_fixed_witness :
    (runWf "py2to3" traceA).codingRan = true ∧
    (runWf "py2to3" traceA).issuesFixed ≤ (runWf "py2to3" traceA).issuesFound
    := ⟨by decide, c4_issues_found_ge_fixed "py2to3" traceA (by decide)⟩

/-- Claim C5: a failure outcome of the Cloning, Planning or Coding stage
moves the job to `Failed` with the executor's cause in one step, leaving the
retry counter and every other field untouched — these stages are never
retried. -/
theorem c5_fatal_stage_failures (j : WfJob) (c : String) :
    (j.status = .cloning → wfStep j (.cloneFailure c) =
        { j with status := .failed, errorDetail := some (.stage c) }) ∧
    (j.status = .planning → wfStep j (.planFailure c) =
        { j with status := .failed, errorDetail := some (.stage c) }) ∧
    (j.status = .coding → wfStep j (.codeFailure c) =
        { j with status := .failed, errorDetail := some (.stage c) }) := by
  refine ⟨?_, ?_, ?_⟩ <;>
    (intro h
     cases j with
     | mk st kind rc flags found fixed ran err =>
         simp only [WfJob.status] at h
         subst h
         rfl)

/-- Witness for C5 at each of the three fatal stages. -/
theorem c5_fatal_stage_failures_witness :
    wfStep (stagedWfJob .cloning) (.cloneFailure "boom") =
      { (stagedWfJob .cloning) with
          status := .failed,
          errorDetail := some (.stage "boom") } ∧
    wfStep (stagedWfJob .planning) (.planFailure "boom") =
      { (stagedWfJob .planning) with
          status := .failed,
          errorDetail := some (.stage "boom") } ∧
    wfStep (stagedWfJob .coding) (.codeFailure "boom") =
      { (stagedWfJob .coding) with
          status := .failed,
          errorDetail := some (.stage "boom") } :=
  ⟨(c5_fatal_stage_failures (stagedWfJob .cloning) "boom").1 rfl,
   (c5_fatal_stage_failures (stagedWfJob .planning) "boom").2.1 rfl,
   (c5_fatal_stage_failures (stagedWfJob .coding) "boom").2.2 rfl⟩

/-- Claim C6: once a trace has brought a job to a terminal status, any
further events leave the stored job unchanged, so any two Get Job Status
reads of the terminal job return the identical snapshot. -/
theorem c6_terminal_read_idempotent (kind : String)
    (es more : List StageEvent) :
    terminalWf (runWf kind es).status = true →
    runWf kind (es ++ more) = runWf kind es := by
  intro h
  unfold runWf at h ⊢
  rw [List.foldl_append]
  exact foldl_terminal _ h more

/-- Witness for C6 on a job that failed at Cloning and is then read again
after further events. -/
theorem c6_terminal_read_idempotent_witness :
    terminalWf (runWf "py2to3" traceFailClone).status = true ∧
    runWf "py2to3" (traceFailClone ++ [.startJob, .testSuccess]) =
      runWf "py2to3" traceFailClone :=
  ⟨by decide,
   c6_terminal_read_idempotent "py2to3" traceFailClone
     [.startJob, .testSuccess] (by decide)⟩

/-- Claim C7: Create Job rejects every unrecognized migration kind with
`InvalidInput`, and every migration kind the client can construct (the
`migration_type` union, which is also the pair of select options in
`RepoMigration`) is in the recognized set. -/
theorem c7_unrecognized_kind_rejected (k : String) (t : MigrationType) :
    (recognizedKinds.contains k = false →
        createJob k = .error .invalidInput) ∧
    recognizedKinds.contains (migrationTypeValue t) = true := by
  constructor
  · intro h
    unfold createJob
    rw [h]
    rfl
  · cases t <;> rfl

/-- Witness for C7 at the unrecognized kind "java_to_kotlin". -/
theorem c7_unrecognized_kind_rejected_witness :
    recognizedKinds.contains "java_to_kotlin" = false ∧
    createJob "java_to_kotlin" = .error .invalidInput ∧
    recognizedKinds.contains (migrationTypeValue .flask_to_fastapi) = true :=
  ⟨by decide,
   (c7_unrecognized_kind_rejected "java_to_kotlin" .flask_to_fastapi).1
     (by decide),
   (c7_unrecognized_kind_rejected "java_to_kotlin" .flask_to_fastapi).2⟩

/-- Claim C8: when the snippet code (`CodeSnippet.handleMigrate`) or the
repository URL (`RepoMigration.handleMigrate`) is empty after trimming, the
handler sets its error message and returns without calling the migration
API. -/
theorem c8_blank_input_never_calls_api (code url : String) :
    (jsTrim code = "" →
        snippetHandleMigrate code =
          { error := some "Please enter some code to migrate",
            apiCalled := false }) ∧
    (jsTrim url = "" →
        repoHandleMigrate url =
          { error := some "Please enter a repository URL",
            apiCalled := false }) := by
  constructor
  · intro h
    simp [snippetHandleMigrate, h]
  · intro h
    simp [repoHandleMigrate, h]

/-- Witness for C8 on a whitespace-only snippet and an empty URL. -/
theorem c8_blank_input_never_calls_api_witness :
    snippetHandleMigrate "   " =
      { error := some "Please enter some code to migrate",
        apiCalled := false } ∧
    repoHandleMigrate "" =
      { error := some "Please enter a repository URL",
        apiCalled := false } :=
  ⟨(c8_blank_input_never_calls_api "   " "").1 (by decide),
   (c8_blank_input_never_calls_api "   " "").2 (by decide)⟩

/-- Claim C9: `FileUpload.onDrop` selects a dropped file exactly when its
name ends with ".zip"; otherwise it sets the ZIP error message and leaves
the selection unchanged. -/
theorem c9_drop_selects_only_zip (s : UploadState) (f : FileMeta) :
    (jsEndsWith f.name ".zip" = true →
        onDrop s [f] = { selectedFile := some f, error := none }) ∧
    (jsEndsWith f.name ".zip" = false →
        onDrop s [f] = { selectedFile := s.selectedFile,
                         error := some "Please upload a ZIP file" }) := by
  constructor
  · intro h
    simp [onDrop, h]
  · intro h
    simp [onDrop, h]

/-- Witness for C9 on a ZIP file (selected) and a tarball (rejected with the
ZIP error, selection unchanged). -/
theorem c9_drop_selects_only_zip_witness :
    onDrop sampleUploadState [{ name := "legacy-app.zip" }] =
      { selectedFile := some { name := "legacy-app.zip" }, error := none } ∧
    onDrop sampleUploadState [{ name := "legacy-app.tar.gz" }] =
      { selectedFile := none,
        error := some "Please upload a ZIP file" } :=
  ⟨(c9_drop_selects_only_zip sampleUploadState { name := "legacy-app.zip" }).1
     (by decide),
   (c9_drop_selects_only_zip sampleUploadState
     { name := "legacy-app.tar.gz" }).2 (by decide)⟩

/-- Claim C10: for a job status outside the five displayed stages, the
`RepoMigration` progress indicator marks no circle active and no stage
current — `indexOf` returns `-1`, so `currentIndex >= index` fails for every
circle and `job.status === stage` fails for every stage. -/
theorem c10_unknown_status_no_highlight (status : MigrationStatus)
    (index : Nat) (stage : String) :
    statusString status ∉ progressStages →
    stageIsActive status index = false ∧
    (stage ∈ progressStages → stageIsCurrent status stage = false) := by
  intro h
  constructor
  · have hidx := jsIndexOf_not_mem progressStages (statusString status) h
    simp only [stageIsActive, hidx, decide_eq_false_iff_not]
    omega
  · intro hs
    have hne : statusString status ≠ stage := fun he => h (he ▸ hs)
    simp [stageIsCurrent, hne]

/-- Witness for C10 at the `pending` status (and also a `failed` check) on
the first circle and the "cloning" stage. -/
theorem c10_unknown_status_no_highlight_witness :
    stageIsActive .pending 0 = false ∧
    stageIsCurrent .pending "cloning" = false ∧
    stageIsActive .failed 2 = false :=
  ⟨(c10_unknown_status_no_highlight .pending 0 "cloning" (by decide)).1,
   (c10_unknown_status_no_highlight .pending 0 "cloning" (by decide)).2
     (by decide),
   (c10_unknown_status_no_highlight .failed 2 "cloning" (by decide)).1⟩

end DevAssist
